import Mathlib

/-!
Verification of the `amms-rs` core: the polymorphic AMM dispatch type
(`src/amm/mod.rs`) over the four pool variants, its address-based equality
and hashing, and the per-variant swap simulation surface.

The dispatch layer (`enum AMM`, its `AutomatedMarketMaker` impl, and the
`Hash`/`PartialEq`/`Eq` impls) is embedded from `src/amm/mod.rs` directly.
The four variant modules (`uniswap_v2.rs`, `uniswap_v3.rs`, `erc_4626.rs`,
`balancer_v2.rs`) are declared there but their sources are not part of the
repository snapshot, so each variant's state and operations are modelled
from the specification (sections 3, 4.1, 4.2, 7 and 8 of the design spec).

Modelling conventions:
- `Address` (an opaque 160-bit value) is modelled as `Nat`.
- `U256` values are modelled as `Nat`; the spec states that arithmetic
  overflow is a fatal internal error that cannot occur under correct sync,
  so arithmetic is modelled exactly rather than with wrap-around.
- Fee rates (rational, e.g. 0.3%) are modelled in parts per million:
  a fee field of `3000` means 0.3%.
- `f64` prices are modelled as `ℚ`; only the error behaviour of
  `calculate_price` is the subject of a claim.
- Rust `&mut self` methods are modelled by returning the updated value:
  `simulate_swap_mut` returns the pair (result, post-call pool state).
-/

/-- Chain address, an opaque 160-bit identifier, modelled as a natural. -/
abbrev Address := Nat

/-- Error taxonomy of the core, from the spec's section 7; the `errors`
module is not in the snapshot, so the constructors are modelled from the
spec's taxonomy. -/
inductive AMMError where
  | TransportationFailure
  | SyncFailure
  | DecodeFailure
  | UnrecognizedEvent
  | InvalidTokenPair
  | InsufficientLiquidity
  | ArithmeticOverflow
deriving DecidableEq, Repr

/-- An event log: emitting address, ordered topic hashes (first topic is
the event signature), and a decoded payload, per the spec's section 6. -/
structure Log where
  address : Address
  topics : List Nat
  data : List Int
deriving DecidableEq, Repr

/-- Modelled from the spec: observable chain state at one block, as read
by the batched static calls of a full sync (reserve getters, slot0/tick
getters, balance getters, vault totals). `none` models a malformed or
reverted response, which a full sync surfaces as a sync error. -/
structure ChainState where
  v2_reserves : Address → Option (Nat × Nat)
  v3_slot : Address → Option (Nat × Int × Nat)
  vault_totals : Address → Option (Nat × Nat)
  pool_balances : Address → Option (List Nat)

/-- Modelled from the spec: the provider capability, giving the latest
block number and the observable chain state at any block. -/
structure ChainProvider where
  latest_block : Nat
  state_at : Nat → ChainState

/-- Modelled from the spec: the reserve-update event signature a
constant-product pool subscribes to (an opaque 256-bit topic hash). -/
def PAIR_SYNC_SIGNATURE : Nat := 101

/-- Modelled from the spec: the swap (tick-crossing) event signature of a
concentrated-liquidity pool. -/
def V3_SWAP_SIGNATURE : Nat := 102

/-- Modelled from the spec: the liquidity mint/burn event signature of a
concentrated-liquidity pool. -/
def V3_LIQUIDITY_SIGNATURE : Nat := 103

/-- Modelled from the spec: the deposit event signature of a vault. -/
def VAULT_DEPOSIT_SIGNATURE : Nat := 104

/-- Modelled from the spec: the withdraw event signature of a vault. -/
def VAULT_WITHDRAW_SIGNATURE : Nat := 105

/-- Modelled from the spec: the balance-change event signature of a
weighted pool. -/
def BALANCER_BALANCE_SIGNATURE : Nat := 106

/-- Fee denominator: fees are rational rates modelled in parts per
million, so a fee of 3000 is 0.3%. -/
def FEE_DENOMINATOR : Nat := 1000000

/-- Modelled from the spec: a constant-product pool's state (section 3):
two ordered tokens, two unsigned reserves, and a fixed rational fee. -/
structure UniswapV2Pool where
  address : Address
  token_a : Address
  token_b : Address
  reserve_0 : Nat
  reserve_1 : Nat
  fee : Nat
deriving DecidableEq, Repr

namespace UniswapV2Pool

/-- Modelled from the spec (section 4.2, constant-product): output =
floor(amount_in_after_fee * reserve_out / (reserve_in + amount_in_after_fee)),
amount_in_after_fee = amount_in * (1 - fee), fee applied before the
integer floor division. Denominators are cleared at the fee denominator,
so the natural-number division is exactly that rational floor. -/
def get_amount_out (amount_in reserve_in reserve_out fee : Nat) : Nat :=
  let amount_in_with_fee := amount_in * (FEE_DENOMINATOR - fee)
  amount_in_with_fee * reserve_out /
    (reserve_in * FEE_DENOMINATOR + amount_in_with_fee)

/-- The ordered token pair of the pool. -/
def tokens (p : UniswapV2Pool) : List Address := [p.token_a, p.token_b]

/-- Modelled from the spec: spot price of the quote token per base token
from cached reserves; fails with `InvalidTokenPair` when either address is
not among the pool's tokens. -/
def calculate_price (p : UniswapV2Pool) (base_token quote_token : Address) :
    Except AMMError ℚ :=
  if base_token = p.token_a ∧ quote_token = p.token_b then
    .ok ((p.reserve_1 : ℚ) / (p.reserve_0 : ℚ))
  else if base_token = p.token_b ∧ quote_token = p.token_a then
    .ok ((p.reserve_0 : ℚ) / (p.reserve_1 : ℚ))
  else
    .error .InvalidTokenPair

/-- Modelled from the spec: pure swap simulation against cached reserves;
`InvalidTokenPair` for any pair that is not the pool's ordered pair in
either direction. -/
def simulate_swap (p : UniswapV2Pool) (base_token quote_token : Address)
    (amount_in : Nat) : Except AMMError Nat :=
  if base_token = p.token_a ∧ quote_token = p.token_b then
    .ok (get_amount_out amount_in p.reserve_0 p.reserve_1 p.fee)
  else if base_token = p.token_b ∧ quote_token = p.token_a then
    .ok (get_amount_out amount_in p.reserve_1 p.reserve_0 p.fee)
  else
    .error .InvalidTokenPair

/-- Modelled from the spec: same computation as `simulate_swap` but on
success the post-swap reserves are committed to the pool; on error the
pool is returned unchanged. -/
def simulate_swap_mut (p : UniswapV2Pool) (base_token quote_token : Address)
    (amount_in : Nat) : Except AMMError Nat × UniswapV2Pool :=
  if base_token = p.token_a ∧ quote_token = p.token_b then
    let amount_out := get_amount_out amount_in p.reserve_0 p.reserve_1 p.fee
    (.ok amount_out,
      { p with reserve_0 := p.reserve_0 + amount_in,
               reserve_1 := p.reserve_1 - amount_out })
  else if base_token = p.token_b ∧ quote_token = p.token_a then
    let amount_out := get_amount_out amount_in p.reserve_1 p.reserve_0 p.fee
    (.ok amount_out,
      { p with reserve_0 := p.reserve_0 - amount_out,
               reserve_1 := p.reserve_1 + amount_in })
  else
    (.error .InvalidTokenPair, p)

/-- Event signatures subscribed to for incremental sync. -/
def sync_on_event_signatures (_p : UniswapV2Pool) : List Nat :=
  [PAIR_SYNC_SIGNATURE]

/-- Modelled from the spec: decode one log and apply it as a state delta;
`UnrecognizedEvent` when the first topic is not subscribed, decode failure
when the payload shape is wrong. -/
def sync_from_log (p : UniswapV2Pool) (log : Log) :
    Except AMMError UniswapV2Pool :=
  if log.topics.headD 0 = PAIR_SYNC_SIGNATURE then
    match log.data with
    | [r0, r1] => .ok { p with reserve_0 := r0.toNat, reserve_1 := r1.toNat }
    | _ => .error .DecodeFailure
  else
    .error .UnrecognizedEvent

/-- Modelled from the spec: full refresh of the reserves via batched
static calls pinned to an explicit block, or latest when omitted. -/
def populate_data (p : UniswapV2Pool) (block_number : Option Nat)
    (provider : ChainProvider) : Except AMMError UniswapV2Pool :=
  match (provider.state_at
      (block_number.getD provider.latest_block)).v2_reserves p.address with
  | some (r0, r1) => .ok { p with reserve_0 := r0, reserve_1 := r1 }
  | none => .error .SyncFailure

/-- Modelled from the spec: full sync at the latest block. -/
def sync (p : UniswapV2Pool) (provider : ChainProvider) :
    Except AMMError UniswapV2Pool :=
  p.populate_data none provider

end UniswapV2Pool

/-- Modelled from the spec (section 3): a concentrated-liquidity pool's
state: ordered tokens, fee, current sqrt-price, current tick, active
liquidity, and the tick-indexed net liquidity deltas of the initialized
ticks ahead of the current tick in each trade direction. -/
structure UniswapV3Pool where
  address : Address
  token_a : Address
  token_b : Address
  fee : Nat
  sqrt_price : Nat
  tick : Int
  liquidity : Nat
  ticks_below : List (Int × Int)
  ticks_above : List (Int × Int)
deriving DecidableEq, Repr

namespace UniswapV3Pool

/-- Apply a tick's net liquidity delta to the active liquidity, clamped
at zero (the spec makes negative liquidity an invariant violation). -/
def apply_liquidity_delta (liquidity : Nat) (delta : Int) : Nat :=
  ((liquidity : Int) + delta).toNat

/-- Modelled from the spec (section 4.2, concentrated-liquidity):
iterative tick crossing. The input is consumed against the current
range's active liquidity until it is exhausted or the next initialized
tick is crossed, updating liquidity from the tick's net delta; when no
further initialized tick exists in the trade direction the swap fails
with `InsufficientLiquidity`. The spec leaves the exact per-range
fixed-point math open (section 9); within one range it is modelled at
unit price with capacity equal to the active liquidity, the fee deducted
from the input of each step. Returns the accumulated output, the final
active liquidity, the final tick, and the initialized ticks left ahead. -/
def swap_within_ticks (fee : Nat) (liquidity : Nat) (current_tick : Int)
    (amount_remaining : Nat) (amount_out_acc : Nat)
    (ticks_ahead : List (Int × Int)) :
    Except AMMError (Nat × Nat × Int × List (Int × Int)) :=
  if amount_remaining ≤ liquidity then
    .ok (amount_out_acc +
         amount_remaining * (FEE_DENOMINATOR - fee) / FEE_DENOMINATOR,
         liquidity, current_tick, ticks_ahead)
  else
    match ticks_ahead with
    | [] => .error .InsufficientLiquidity
    | (next_tick, delta) :: rest =>
      swap_within_ticks fee (apply_liquidity_delta liquidity delta)
        next_tick (amount_remaining - liquidity)
        (amount_out_acc + liquidity * (FEE_DENOMINATOR - fee) / FEE_DENOMINATOR)
        rest
termination_by ticks_ahead.length
decreasing_by simp

/-- The ordered token pair of the pool. -/
def tokens (p : UniswapV3Pool) : List Address := [p.token_a, p.token_b]

/-- Modelled from the spec: spot price from the cached sqrt-price (the
square root of the token1/token0 price); `InvalidTokenPair` when either
address is not among the pool's tokens. -/
def calculate_price (p : UniswapV3Pool) (base_token quote_token : Address) :
    Except AMMError ℚ :=
  if base_token = p.token_a ∧ quote_token = p.token_b then
    .ok ((p.sqrt_price : ℚ) * (p.sqrt_price : ℚ))
  else if base_token = p.token_b ∧ quote_token = p.token_a then
    .ok (1 / ((p.sqrt_price : ℚ) * (p.sqrt_price : ℚ)))
  else
    .error .InvalidTokenPair

/-- Modelled from the spec: pure swap simulation by iterative tick
crossing against cached state; the trade direction selects which side's
initialized ticks can be crossed. -/
def simulate_swap (p : UniswapV3Pool) (base_token quote_token : Address)
    (amount_in : Nat) : Except AMMError Nat :=
  if base_token = p.token_a ∧ quote_token = p.token_b then
    (swap_within_ticks p.fee p.liquidity p.tick amount_in 0 p.ticks_below).map
      (fun r => r.1)
  else if base_token = p.token_b ∧ quote_token = p.token_a then
    (swap_within_ticks p.fee p.liquidity p.tick amount_in 0 p.ticks_above).map
      (fun r => r.1)
  else
    .error .InvalidTokenPair

/-- Modelled from the spec: same computation as `simulate_swap` but on
success the post-swap tick, active liquidity and remaining initialized
ticks are committed to the pool; on error the pool is unchanged. -/
def simulate_swap_mut (p : UniswapV3Pool) (base_token quote_token : Address)
    (amount_in : Nat) : Except AMMError Nat × UniswapV3Pool :=
  if base_token = p.token_a ∧ quote_token = p.token_b then
    match swap_within_ticks p.fee p.liquidity p.tick amount_in 0 p.ticks_below with
    | .ok (amount_out, liquidity_final, tick_final, ticks_rest) =>
      (.ok amount_out,
        { p with liquidity := liquidity_final, tick := tick_final,
                 ticks_below := ticks_rest })
    | .error e => (.error e, p)
  else if base_token = p.token_b ∧ quote_token = p.token_a then
    match swap_within_ticks p.fee p.liquidity p.tick amount_in 0 p.ticks_above with
    | .ok (amount_out, liquidity_final, tick_final, ticks_rest) =>
      (.ok amount_out,
        { p with liquidity := liquidity_final, tick := tick_final,
                 ticks_above := ticks_rest })
    | .error e => (.error e, p)
  else
    (.error .InvalidTokenPair, p)

/-- Event signatures subscribed to for incremental sync. -/
def sync_on_event_signatures (_p : UniswapV3Pool) : List Nat :=
  [V3_SWAP_SIGNATURE, V3_LIQUIDITY_SIGNATURE]

/-- Modelled from the spec: a swap event replaces sqrt-price, tick and
active liquidity; a mint/burn event applies a net liquidity delta;
unknown topics are unrecognized, malformed payloads fail to decode. -/
def sync_from_log (p : UniswapV3Pool) (log : Log) :
    Except AMMError UniswapV3Pool :=
  if log.topics.headD 0 = V3_SWAP_SIGNATURE then
    match log.data with
    | [sp, t, l] =>
      .ok { p with sqrt_price := sp.toNat, tick := t, liquidity := l.toNat }
    | _ => .error .DecodeFailure
  else if log.topics.headD 0 = V3_LIQUIDITY_SIGNATURE then
    match log.data with
    | [delta] =>
      .ok { p with liquidity := apply_liquidity_delta p.liquidity delta }
    | _ => .error .DecodeFailure
  else
    .error .UnrecognizedEvent

/-- Modelled from the spec: full refresh of slot state (sqrt-price, tick,
liquidity) via batched static calls at an explicit or latest block. -/
def populate_data (p : UniswapV3Pool) (block_number : Option Nat)
    (provider : ChainProvider) : Except AMMError UniswapV3Pool :=
  match (provider.state_at
      (block_number.getD provider.latest_block)).v3_slot p.address with
  | some (sp, t, l) =>
    .ok { p with sqrt_price := sp, tick := t, liquidity := l }
  | none => .error .SyncFailure

/-- Modelled from the spec: full sync at the latest block. -/
def sync (p : UniswapV3Pool) (provider : ChainProvider) :
    Except AMMError UniswapV3Pool :=
  p.populate_data none provider

end UniswapV3Pool

/-- Modelled from the spec (section 3): a vault pool's state: the share
token (which is also the vault's address), the underlying asset token,
total underlying assets and total shares issued. Vault pools have no fee
in this core. -/
structure ERC4626Vault where
  vault_token : Address
  asset_token : Address
  total_assets : Nat
  total_shares : Nat
deriving DecidableEq, Repr

namespace ERC4626Vault

/-- The vault's identity is the share token's address. -/
def address (v : ERC4626Vault) : Address := v.vault_token

/-- The token pair of the vault: share token and underlying asset. -/
def tokens (v : ERC4626Vault) : List Address := [v.vault_token, v.asset_token]

/-- Modelled from the spec: the share price assets/shares, or its inverse
for the opposite direction; `InvalidTokenPair` for any other pair. -/
def calculate_price (v : ERC4626Vault) (base_token quote_token : Address) :
    Except AMMError ℚ :=
  if base_token = v.asset_token ∧ quote_token = v.vault_token then
    .ok ((v.total_shares : ℚ) / (v.total_assets : ℚ))
  else if base_token = v.vault_token ∧ quote_token = v.asset_token then
    .ok ((v.total_assets : ℚ) / (v.total_shares : ℚ))
  else
    .error .InvalidTokenPair

/-- Modelled from the spec: exchange-rate swap, floor-divided, no fee.
The spec's concrete fixture (section 8: total_assets 1000, total_shares
500, depositing 100 underlying mints 50 shares) fixes the deposit
direction as amount_in * total_shares / total_assets, the standard vault
conversion; the withdrawal direction uses the inverse ratio. -/
def simulate_swap (v : ERC4626Vault) (base_token quote_token : Address)
    (amount_in : Nat) : Except AMMError Nat :=
  if base_token = v.asset_token ∧ quote_token = v.vault_token then
    .ok (amount_in * v.total_shares / v.total_assets)
  else if base_token = v.vault_token ∧ quote_token = v.asset_token then
    .ok (amount_in * v.total_assets / v.total_shares)
  else
    .error .InvalidTokenPair

/-- Modelled from the spec: same computation as `simulate_swap` but the
post-swap totals are committed on success; unchanged on error. -/
def simulate_swap_mut (v : ERC4626Vault) (base_token quote_token : Address)
    (amount_in : Nat) : Except AMMError Nat × ERC4626Vault :=
  if base_token = v.asset_token ∧ quote_token = v.vault_token then
    let shares_out := amount_in * v.total_shares / v.total_assets
    (.ok shares_out,
      { v with total_assets := v.total_assets + amount_in,
               total_shares := v.total_shares + shares_out })
  else if base_token = v.vault_token ∧ quote_token = v.asset_token then
    let assets_out := amount_in * v.total_assets / v.total_shares
    (.ok assets_out,
      { v with total_assets := v.total_assets - assets_out,
               total_shares := v.total_shares - amount_in })
  else
    (.error .InvalidTokenPair, v)

/-- Event signatures subscribed to for incremental sync. -/
def sync_on_event_signatures (_v : ERC4626Vault) : List Nat :=
  [VAULT_DEPOSIT_SIGNATURE, VAULT_WITHDRAW_SIGNATURE]

/-- Modelled from the spec: deposit and withdraw events update total
assets and total shares; unknown topics are unrecognized, malformed
payloads fail to decode. -/
def sync_from_log (v : ERC4626Vault) (log : Log) :
    Except AMMError ERC4626Vault :=
  if log.topics.headD 0 = VAULT_DEPOSIT_SIGNATURE then
    match log.data with
    | [assets, shares] =>
      .ok { v with total_assets := v.total_assets + assets.toNat,
                   total_shares := v.total_shares + shares.toNat }
    | _ => .error .DecodeFailure
  else if log.topics.headD 0 = VAULT_WITHDRAW_SIGNATURE then
    match log.data with
    | [assets, shares] =>
      .ok { v with total_assets := v.total_assets - assets.toNat,
                   total_shares := v.total_shares - shares.toNat }
    | _ => .error .DecodeFailure
  else
    .error .UnrecognizedEvent

/-- Modelled from the spec: full refresh of the vault totals via batched
static calls at an explicit or latest block. -/
def populate_data (v : ERC4626Vault) (block_number : Option Nat)
    (provider : ChainProvider) : Except AMMError ERC4626Vault :=
  match (provider.state_at
      (block_number.getD provider.latest_block)).vault_totals v.address with
  | some (assets, shares) =>
    .ok { v with total_assets := assets, total_shares := shares }
  | none => .error .SyncFailure

/-- Modelled from the spec: full sync at the latest block. -/
def sync (v : ERC4626Vault) (provider : ChainProvider) :
    Except AMMError ERC4626Vault :=
  v.populate_data none provider

end ERC4626Vault

/-- Modelled from the spec (section 3): a weighted multi-asset pool's
state: an ordered token list with per-token balances and fixed-point
weights, and a fixed rational fee. -/
structure BalancerV2Pool where
  address : Address
  tokens : List Address
  balances : List Nat
  weights : List Nat
  fee : Nat
deriving DecidableEq, Repr

namespace BalancerV2Pool

/-- Modelled from the spec (section 4.2, weighted): output =
balance_out * (1 - (balance_in / (balance_in + amount_in_after_fee)) ^
(weight_in / weight_out)), rounded down. The spec leaves the on-chain
fixed-point power approximation open (section 9); the power term is
modelled at exponent one (the equal-weight case, where the formula is
exactly balance_out * amount_in_after_fee / (balance_in +
amount_in_after_fee), floor-divided). -/
def weighted_amount_out (balance_in balance_out amount_in_after_fee : Nat) :
    Nat :=
  balance_out * amount_in_after_fee / (balance_in + amount_in_after_fee)

/-- Modelled from the spec: spot price from per-token balance/weight
ratios; `InvalidTokenPair` when either address is not a pool token. -/
def calculate_price (p : BalancerV2Pool) (base_token quote_token : Address) :
    Except AMMError ℚ :=
  if base_token ∈ p.tokens ∧ quote_token ∈ p.tokens then
    let i := p.tokens.indexOf base_token
    let j := p.tokens.indexOf quote_token
    .ok (((p.balances.getD j 0 : ℚ) / (p.weights.getD j 1 : ℚ)) /
         ((p.balances.getD i 0 : ℚ) / (p.weights.getD i 1 : ℚ)))
  else
    .error .InvalidTokenPair

/-- Modelled from the spec: pure weighted swap simulation; the fee is
applied to the input before the division. -/
def simulate_swap (p : BalancerV2Pool) (base_token quote_token : Address)
    (amount_in : Nat) : Except AMMError Nat :=
  if base_token ∈ p.tokens ∧ quote_token ∈ p.tokens then
    let i := p.tokens.indexOf base_token
    let j := p.tokens.indexOf quote_token
    let amount_in_after_fee := amount_in * (FEE_DENOMINATOR - p.fee) / FEE_DENOMINATOR
    .ok (weighted_amount_out (p.balances.getD i 0) (p.balances.getD j 0)
          amount_in_after_fee)
  else
    .error .InvalidTokenPair

/-- Modelled from the spec: same computation as `simulate_swap` but the
post-swap balances are committed on success; unchanged on error. -/
def simulate_swap_mut (p : BalancerV2Pool) (base_token quote_token : Address)
    (amount_in : Nat) : Except AMMError Nat × BalancerV2Pool :=
  if base_token ∈ p.tokens ∧ quote_token ∈ p.tokens then
    let i := p.tokens.indexOf base_token
    let j := p.tokens.indexOf quote_token
    let amount_in_after_fee := amount_in * (FEE_DENOMINATOR - p.fee) / FEE_DENOMINATOR
    let amount_out := weighted_amount_out (p.balances.getD i 0)
      (p.balances.getD j 0) amount_in_after_fee
    (.ok amount_out,
      { p with balances :=
          ((p.balances.set i (p.balances.getD i 0 + amount_in)).set j
            (p.balances.getD j 0 - amount_out)) })
  else
    (.error .InvalidTokenPair, p)

/-- Event signatures subscribed to for incremental sync. -/
def sync_on_event_signatures (_p : BalancerV2Pool) : List Nat :=
  [BALANCER_BALANCE_SIGNATURE]

/-- Modelled from the spec: a balance-change event replaces the balance
vector; unknown topics are unrecognized, malformed payloads (wrong
arity) fail to decode. -/
def sync_from_log (p : BalancerV2Pool) (log : Log) :
    Except AMMError BalancerV2Pool :=
  if log.topics.headD 0 = BALANCER_BALANCE_SIGNATURE then
    if log.data.length = p.tokens.length then
      .ok { p with balances := log.data.map Int.toNat }
    else
      .error .DecodeFailure
  else
    .error .UnrecognizedEvent

/-- Modelled from the spec: full refresh of the balance vector via
batched static calls at an explicit or latest block. -/
def populate_data (p : BalancerV2Pool) (block_number : Option Nat)
    (provider : ChainProvider) : Except AMMError BalancerV2Pool :=
  match (provider.state_at
      (block_number.getD provider.latest_block)).pool_balances p.address with
  | some bs => .ok { p with balances := bs }
  | none => .error .SyncFailure

/-- Modelled from the spec: full sync at the latest block. -/
def sync (p : BalancerV2Pool) (provider : ChainProvider) :
    Except AMMError BalancerV2Pool :=
  p.populate_data none provider

end BalancerV2Pool

/-- The AMM dispatch type of `src/amm/mod.rs`: a tagged union over the
four pool variants, produced by the `amm!` macro invocation
`amm!(UniswapV2Pool, UniswapV3Pool, ERC4626Vault, BalancerV2Pool)`. -/
inductive AMM where
  | UniswapV2Pool (pool : UniswapV2Pool)
  | UniswapV3Pool (pool : UniswapV3Pool)
  | ERC4626Vault (pool : ERC4626Vault)
  | BalancerV2Pool (pool : BalancerV2Pool)
deriving DecidableEq, Repr

namespace AMM

/-- Dispatch of `address` to the wrapped variant (`src/amm/mod.rs`). -/
def address : AMM → Address
  | .UniswapV2Pool pool => pool.address
  | .UniswapV3Pool pool => pool.address
  | .ERC4626Vault pool => pool.address
  | .BalancerV2Pool pool => pool.address

/-- Dispatch of `tokens` to the wrapped variant (`src/amm/mod.rs`). -/
def tokens : AMM → List Address
  | .UniswapV2Pool pool => pool.tokens
  | .UniswapV3Pool pool => pool.tokens
  | .ERC4626Vault pool => pool.tokens
  | .BalancerV2Pool pool => pool.tokens

/-- Dispatch of `sync_on_event_signatures` to the wrapped variant
(`src/amm/mod.rs`). -/
def sync_on_event_signatures : AMM → List Nat
  | .UniswapV2Pool pool => pool.sync_on_event_signatures
  | .UniswapV3Pool pool => pool.sync_on_event_signatures
  | .ERC4626Vault pool => pool.sync_on_event_signatures
  | .BalancerV2Pool pool => pool.sync_on_event_signatures

/-- Dispatch of `calculate_price` to the wrapped variant
(`src/amm/mod.rs`). -/
def calculate_price (a : AMM) (base_token quote_token : Address) :
    Except AMMError ℚ :=
  match a with
  | .UniswapV2Pool pool => pool.calculate_price base_token quote_token
  | .UniswapV3Pool pool => pool.calculate_price base_token quote_token
  | .ERC4626Vault pool => pool.calculate_price base_token quote_token
  | .BalancerV2Pool pool => pool.calculate_price base_token quote_token

/-- Dispatch of `simulate_swap` to the wrapped variant
(`src/amm/mod.rs`). -/
def simulate_swap (a : AMM) (base_token quote_token : Address)
    (amount_in : Nat) : Except AMMError Nat :=
  match a with
  | .UniswapV2Pool pool => pool.simulate_swap base_token quote_token amount_in
  | .UniswapV3Pool pool => pool.simulate_swap base_token quote_token amount_in
  | .ERC4626Vault pool => pool.simulate_swap base_token quote_token amount_in
  | .BalancerV2Pool pool => pool.simulate_swap base_token quote_token amount_in

/-- Dispatch of `simulate_swap_mut` to the wrapped variant
(`src/amm/mod.rs`); the `&mut self` receiver is modelled by returning the
post-call state next to the result. -/
def simulate_swap_mut (a : AMM) (base_token quote_token : Address)
    (amount_in : Nat) : Except AMMError Nat × AMM :=
  match a with
  | .UniswapV2Pool pool =>
    let r := pool.simulate_swap_mut base_token quote_token amount_in
    (r.1, .UniswapV2Pool r.2)
  | .UniswapV3Pool pool =>
    let r := pool.simulate_swap_mut base_token quote_token amount_in
    (r.1, .UniswapV3Pool r.2)
  | .ERC4626Vault pool =>
    let r := pool.simulate_swap_mut base_token quote_token amount_in
    (r.1, .ERC4626Vault r.2)
  | .BalancerV2Pool pool =>
    let r := pool.simulate_swap_mut base_token quote_token amount_in
    (r.1, .BalancerV2Pool r.2)

/-- Dispatch of `sync_from_log` to the wrapped variant
(`src/amm/mod.rs`). -/
def sync_from_log (a : AMM) (log : Log) : Except AMMError AMM :=
  match a with
  | .UniswapV2Pool pool => (pool.sync_from_log log).map .UniswapV2Pool
  | .UniswapV3Pool pool => (pool.sync_from_log log).map .UniswapV3Pool
  | .ERC4626Vault pool => (pool.sync_from_log log).map .ERC4626Vault
  | .BalancerV2Pool pool => (pool.sync_from_log log).map .BalancerV2Pool

/-- Dispatch of `populate_data` to the wrapped variant
(`src/amm/mod.rs`). -/
def populate_data (a : AMM) (block_number : Option Nat)
    (provider : ChainProvider) : Except AMMError AMM :=
  match a with
  | .UniswapV2Pool pool =>
    (pool.populate_data block_number provider).map .UniswapV2Pool
  | .UniswapV3Pool pool =>
    (pool.populate_data block_number provider).map .UniswapV3Pool
  | .ERC4626Vault pool =>
    (pool.populate_data block_number provider).map .ERC4626Vault
  | .BalancerV2Pool pool =>
    (pool.populate_data block_number provider).map .BalancerV2Pool

/-- Dispatch of `sync` to the wrapped variant (`src/amm/mod.rs`). -/
def sync (a : AMM) (provider : ChainProvider) : Except AMMError AMM :=
  match a with
  | .UniswapV2Pool pool => (pool.sync provider).map .UniswapV2Pool
  | .UniswapV3Pool pool => (pool.sync provider).map .UniswapV3Pool
  | .ERC4626Vault pool => (pool.sync provider).map .ERC4626Vault
  | .BalancerV2Pool pool => (pool.sync provider).map .BalancerV2Pool

/-- The `PartialEq` impl of `src/amm/mod.rs`: two AMM values are equal
exactly when their addresses are equal. -/
def beq (a b : AMM) : Bool :=
  a.address == b.address

/-- The `Hash` impl of `src/amm/mod.rs`: hashing an AMM feeds only its
address to the hasher, modelled by an arbitrary address-hash function. -/
def hash_value (hasher : Address → Nat) (a : AMM) : Nat :=
  hasher a.address

end AMM

/-- C1: for every two AMM values `a` and `b`, `a == b` holds if and only
if `address(a) == address(b)`; the hash of an AMM is the hash of its
address alone; and two AMM instances with the same address are equal
regardless of any other cached state. -/
theorem claim_c1_eq_and_hash_solely_by_address :
    (∀ a b : AMM, AMM.beq a b = true ↔ a.address = b.address) ∧
    (∀ (hasher : Address → Nat) (a : AMM),
      AMM.hash_value hasher a = hasher a.address) ∧
    (∀ a b : AMM, a.address = b.address → AMM.beq a b = true) := by
  refine ⟨fun a b => ?_, fun hasher a => rfl, fun a b h => ?_⟩
  · simp [AMM.beq]
  · simp [AMM.beq, h]

/-- Witness for C1: two constant-product pools at the same address whose
reserves differ compare equal, and the hash is the address hash. -/
theorem claim_c1_eq_and_hash_solely_by_address_witness :
    AMM.beq (.UniswapV2Pool ⟨1, 2, 3, 1000, 1000, 3000⟩)
      (.UniswapV2Pool ⟨1, 2, 3, 555, 777, 3000⟩) = true ∧
    AMM.hash_value Nat.succ (.UniswapV2Pool ⟨1, 2, 3, 1000, 1000, 3000⟩) = 2 := by
  constructor
  · exact claim_c1_eq_and_hash_solely_by_address.2.2 _ _ rfl
  · exact (claim_c1_eq_and_hash_solely_by_address.2.1 Nat.succ _).trans rfl

/-- C10: two AMM values wrapping different variants that report the same
address compare equal and hash identically; equality and hashing ignore
the variant tag, so the hash is consistent with equality across
variants. -/
theorem claim_c10_eq_and_hash_ignore_variant_tag :
    (∀ (p : UniswapV2Pool) (v : ERC4626Vault),
      p.address = v.vault_token →
      AMM.beq (.UniswapV2Pool p) (.ERC4626Vault v) = true ∧
      ∀ hasher : Address → Nat,
        AMM.hash_value hasher (.UniswapV2Pool p) =
          AMM.hash_value hasher (.ERC4626Vault v)) ∧
    (∀ (hasher : Address → Nat) (a b : AMM),
      AMM.beq a b = true →
      AMM.hash_value hasher a = AMM.hash_value hasher b) := by
  constructor
  · intro p v h
    constructor
    · simp [AMM.beq, AMM.address, ERC4626Vault.address, h]
    · intro hasher
      simp [AMM.hash_value, AMM.address, ERC4626Vault.address, h]
  · intro hasher a b h
    simp only [AMM.beq, beq_iff_eq] at h
    simp [AMM.hash_value, h]

/-- Witness for C10: a constant-product pool and a vault at address 7
are equal as AMM values and have identical hashes. -/
theorem claim_c10_eq_and_hash_ignore_variant_tag_witness :
    AMM.beq (.UniswapV2Pool ⟨7, 2, 3, 10, 20, 3000⟩)
      (.ERC4626Vault ⟨7, 9, 1000, 500⟩) = true ∧
    AMM.hash_value id (.UniswapV2Pool ⟨7, 2, 3, 10, 20, 3000⟩) =
      AMM.hash_value id (.ERC4626Vault ⟨7, 9, 1000, 500⟩) := by
  constructor
  · exact (claim_c10_eq_and_hash_ignore_variant_tag.1 _ _ rfl).1
  · exact (claim_c10_eq_and_hash_ignore_variant_tag.1 _ _ rfl).2 id

/-- C2: the AMM dispatch type is a tagged union over exactly the four
variants, and every operation of the AutomatedMarketMaker surface on an
AMM value returns exactly the result of the same operation on the
wrapped variant value (address, tokens, sync_on_event_signatures, sync,
sync_from_log, populate_data, calculate_price, simulate_swap,
simulate_swap_mut). -/
theorem claim_c2_closed_dispatch_over_four_variants :
    (∀ a : AMM,
      (∃ p, a = .UniswapV2Pool p) ∨ (∃ p, a = .UniswapV3Pool p) ∨
      (∃ p, a = .ERC4626Vault p) ∨ (∃ p, a = .BalancerV2Pool p)) ∧
    (∀ p : UniswapV2Pool,
      (AMM.UniswapV2Pool p).address = p.address ∧
      (AMM.UniswapV2Pool p).tokens = p.tokens ∧
      (AMM.UniswapV2Pool p).sync_on_event_signatures =
        p.sync_on_event_signatures ∧
      (∀ provider, (AMM.UniswapV2Pool p).sync provider =
        (p.sync provider).map AMM.UniswapV2Pool) ∧
      (∀ log, (AMM.UniswapV2Pool p).sync_from_log log =
        (p.sync_from_log log).map AMM.UniswapV2Pool) ∧
      (∀ block_number provider,
        (AMM.UniswapV2Pool p).populate_data block_number provider =
          (p.populate_data block_number provider).map AMM.UniswapV2Pool) ∧
      (∀ base quote, (AMM.UniswapV2Pool p).calculate_price base quote =
        p.calculate_price base quote) ∧
      (∀ base quote amount_in,
        (AMM.UniswapV2Pool p).simulate_swap base quote amount_in =
          p.simulate_swap base quote amount_in) ∧
      (∀ base quote amount_in,
        (AMM.UniswapV2Pool p).simulate_swap_mut base quote amount_in =
          ((p.simulate_swap_mut base quote amount_in).1,
            AMM.UniswapV2Pool (p.simulate_swap_mut base quote amount_in).2))) ∧
    (∀ p : UniswapV3Pool,
      (AMM.UniswapV3Pool p).address = p.address ∧
      (AMM.UniswapV3Pool p).tokens = p.tokens ∧
      (AMM.UniswapV3Pool p).sync_on_event_signatures =
        p.sync_on_event_signatures ∧
      (∀ provider, (AMM.UniswapV3Pool p).sync provider =
        (p.sync provider).map AMM.UniswapV3Pool) ∧
      (∀ log, (AMM.UniswapV3Pool p).sync_from_log log =
        (p.sync_from_log log).map AMM.UniswapV3Pool) ∧
      (∀ block_number provider,
        (AMM.UniswapV3Pool p).populate_data block_number provider =
          (p.populate_data block_number provider).map AMM.UniswapV3Pool) ∧
      (∀ base quote, (AMM.UniswapV3Pool p).calculate_price base quote =
        p.calculate_price base quote) ∧
      (∀ base quote amount_in,
        (AMM.UniswapV3Pool p).simulate_swap base quote amount_in =
          p.simulate_swap base quote amount_in) ∧
      (∀ base quote amount_in,
        (AMM.UniswapV3Pool p).simulate_swap_mut base quote amount_in =
          ((p.simulate_swap_mut base quote amount_in).1,
            AMM.UniswapV3Pool (p.simulate_swap_mut base quote amount_in).2))) ∧
    (∀ p : ERC4626Vault,
      (AMM.ERC4626Vault p).address = p.address ∧
      (AMM.ERC4626Vault p).tokens = p.tokens ∧
      (AMM.ERC4626Vault p).sync_on_event_signatures =
        p.sync_on_event_signatures ∧
      (∀ provider, (AMM.ERC4626Vault p).sync provider =
        (p.sync provider).map AMM.ERC4626Vault) ∧
      (∀ log, (AMM.ERC4626Vault p).sync_from_log log =
        (p.sync_from_log log).map AMM.ERC4626Vault) ∧
      (∀ block_number provider,
        (AMM.ERC4626Vault p).populate_data block_number provider =
          (p.populate_data block_number provider).map AMM.ERC4626Vault) ∧
      (∀ base quote, (AMM.ERC4626Vault p).calculate_price base quote =
        p.calculate_price base quote) ∧
      (∀ base quote amount_in,
        (AMM.ERC4626Vault p).simulate_swap base quote amount_in =
          p.simulate_swap base quote amount_in) ∧
      (∀ base quote amount_in,
        (AMM.ERC4626Vault p).simulate_swap_mut base quote amount_in =
          ((p.simulate_swap_mut base quote amount_in).1,
            AMM.ERC4626Vault (p.simulate_swap_mut base quote amount_in).2))) ∧
    (∀ p : BalancerV2Pool,
      (AMM.BalancerV2Pool p).address = p.address ∧
      (AMM.BalancerV2Pool p).tokens = p.tokens ∧
      (AMM.BalancerV2Pool p).sync_on_event_signatures =
        p.sync_on_event_signatures ∧
      (∀ provider, (AMM.BalancerV2Pool p).sync provider =
        (p.sync provider).map AMM.BalancerV2Pool) ∧
      (∀ log, (AMM.BalancerV2Pool p).sync_from_log log =
        (p.sync_from_log log).map AMM.BalancerV2Pool) ∧
      (∀ block_number provider,
        (AMM.BalancerV2Pool p).populate_data block_number provider =
          (p.populate_data block_number provider).map AMM.BalancerV2Pool) ∧
      (∀ base quote, (AMM.BalancerV2Pool p).calculate_price base quote =
        p.calculate_price base quote) ∧
      (∀ base quote amount_in,
        (AMM.BalancerV2Pool p).simulate_swap base quote amount_in =
          p.simulate_swap base quote amount_in) ∧
      (∀ base quote amount_in,
        (AMM.BalancerV2Pool p).simulate_swap_mut base quote amount_in =
          ((p.simulate_swap_mut base quote amount_in).1,
            AMM.BalancerV2Pool (p.simulate_swap_mut base quote amount_in).2))) := by
  refine ⟨fun a => ?_, ?_, ?_, ?_, ?_⟩
  · cases a with
    | UniswapV2Pool p => exact Or.inl ⟨p, rfl⟩
    | UniswapV3Pool p => exact Or.inr (Or.inl ⟨p, rfl⟩)
    | ERC4626Vault p => exact Or.inr (Or.inr (Or.inl ⟨p, rfl⟩))
    | BalancerV2Pool p => exact Or.inr (Or.inr (Or.inr ⟨p, rfl⟩))
  all_goals
    intro p
    exact ⟨rfl, rfl, rfl, fun _ => rfl, fun _ => rfl, fun _ _ => rfl,
      fun _ _ => rfl, fun _ _ _ => rfl, fun _ _ _ => rfl⟩

/-- A zero remaining amount terminates the tick-crossing loop at once
with zero additional output and unchanged range state. -/
theorem UniswapV3Pool.swap_within_ticks_zero (fee liquidity : Nat) (t : Int)
    (ticks_ahead : List (Int × Int)) :
    UniswapV3Pool.swap_within_ticks fee liquidity t 0 0 ticks_ahead =
      .ok (0, liquidity, t, ticks_ahead) := by
  rw [UniswapV3Pool.swap_within_ticks.eq_def]
  simp

/-- C5: for every pool of every variant, simulating a swap of amount
zero for a valid token pair succeeds with output zero. -/
theorem claim_c5_zero_amount_in_yields_zero :
    ∀ (a : AMM) (base quote : Address),
      base ∈ a.tokens → quote ∈ a.tokens → base ≠ quote →
      a.simulate_swap base quote 0 = .ok 0 := by
  intro a base quote hb hq hne
  cases a with
  | UniswapV2Pool p =>
    simp only [AMM.tokens, UniswapV2Pool.tokens, List.mem_cons,
      List.mem_singleton, List.not_mem_nil, or_false] at hb hq
    rcases hb with hb | hb <;> rcases hq with hq | hq <;> subst hb <;> subst hq
    · exact absurd rfl hne
    · simp [AMM.simulate_swap, UniswapV2Pool.simulate_swap,
        UniswapV2Pool.get_amount_out]
    · have hab : p.token_b ≠ p.token_a := hne
      simp [AMM.simulate_swap, UniswapV2Pool.simulate_swap,
        UniswapV2Pool.get_amount_out, hab]
    · exact absurd rfl hne
  | UniswapV3Pool p =>
    simp only [AMM.tokens, UniswapV3Pool.tokens, List.mem_cons,
      List.mem_singleton, List.not_mem_nil, or_false] at hb hq
    rcases hb with hb | hb <;> rcases hq with hq | hq <;> subst hb <;> subst hq
    · exact absurd rfl hne
    · simp [AMM.simulate_swap, UniswapV3Pool.simulate_swap,
        UniswapV3Pool.swap_within_ticks_zero, Except.map]
    · have hab : p.token_b ≠ p.token_a := hne
      simp [AMM.simulate_swap, UniswapV3Pool.simulate_swap,
        UniswapV3Pool.swap_within_ticks_zero, Except.map, hab]
    · exact absurd rfl hne
  | ERC4626Vault v =>
    simp only [AMM.tokens, ERC4626Vault.tokens, List.mem_cons,
      List.mem_singleton, List.not_mem_nil, or_false] at hb hq
    rcases hb with hb | hb <;> rcases hq with hq | hq <;> subst hb <;> subst hq
    · exact absurd rfl hne
    · have hav : v.vault_token ≠ v.asset_token := hne
      simp [AMM.simulate_swap, ERC4626Vault.simulate_swap, hav]
    · simp [AMM.simulate_swap, ERC4626Vault.simulate_swap]
    · exact absurd rfl hne
  | BalancerV2Pool p =>
    simp only [AMM.tokens] at hb hq
    simp [AMM.simulate_swap, BalancerV2Pool.simulate_swap, hb, hq,
      BalancerV2Pool.weighted_amount_out]

/-- Witness for C5: a concrete constant-product pool with tokens 2 and 3
returns zero output for a zero input. -/
theorem claim_c5_zero_amount_in_yields_zero_witness :
    AMM.simulate_swap (.UniswapV2Pool ⟨1, 2, 3, 1000, 1000, 3000⟩) 2 3 0 =
      .ok 0 :=
  claim_c5_zero_amount_in_yields_zero _ 2 3
    (by simp [AMM.tokens, UniswapV2Pool.tokens])
    (by simp [AMM.tokens, UniswapV2Pool.tokens]) (by decide)

/-- C9: for every pool of every variant, calculate_price, simulate_swap
and simulate_swap_mut return the InvalidTokenPair error whenever the
base or the quote token address is not among the pool's tokens. -/
theorem claim_c9_invalid_token_pair_error :
    ∀ (a : AMM) (base quote : Address) (amount_in : Nat),
      base ∉ a.tokens ∨ quote ∉ a.tokens →
      a.calculate_price base quote = .error .InvalidTokenPair ∧
      a.simulate_swap base quote amount_in = .error .InvalidTokenPair ∧
      (a.simulate_swap_mut base quote amount_in).1 =
        .error .InvalidTokenPair := by
  intro a base quote amount_in h
  cases a with
  | UniswapV2Pool p =>
    simp only [AMM.tokens, UniswapV2Pool.tokens, List.mem_cons,
      List.mem_singleton, List.not_mem_nil, or_false, not_or] at h
    rcases h with ⟨h1, h2⟩ | ⟨h1, h2⟩ <;>
      refine ⟨?_, ?_, ?_⟩ <;>
      simp [AMM.calculate_price, AMM.simulate_swap, AMM.simulate_swap_mut,
        UniswapV2Pool.calculate_price, UniswapV2Pool.simulate_swap,
        UniswapV2Pool.simulate_swap_mut, h1, h2]
  | UniswapV3Pool p =>
    simp only [AMM.tokens, UniswapV3Pool.tokens, List.mem_cons,
      List.mem_singleton, List.not_mem_nil, or_false, not_or] at h
    rcases h with ⟨h1, h2⟩ | ⟨h1, h2⟩ <;>
      refine ⟨?_, ?_, ?_⟩ <;>
      simp [AMM.calculate_price, AMM.simulate_swap, AMM.simulate_swap_mut,
        UniswapV3Pool.calculate_price, UniswapV3Pool.simulate_swap,
        UniswapV3Pool.simulate_swap_mut, h1, h2]
  | ERC4626Vault v =>
    simp only [AMM.tokens, ERC4626Vault.tokens, List.mem_cons,
      List.mem_singleton, List.not_mem_nil, or_false, not_or] at h
    rcases h with ⟨h1, h2⟩ | ⟨h1, h2⟩ <;>
      refine ⟨?_, ?_, ?_⟩ <;>
      simp [AMM.calculate_price, AMM.simulate_swap, AMM.simulate_swap_mut,
        ERC4626Vault.calculate_price, ERC4626Vault.simulate_swap,
        ERC4626Vault.simulate_swap_mut, h1, h2]
  | BalancerV2Pool p =>
    simp only [AMM.tokens] at h
    rcases h with h | h <;>
      refine ⟨?_, ?_, ?_⟩ <;>
      simp [AMM.calculate_price, AMM.simulate_swap, AMM.simulate_swap_mut,
        BalancerV2Pool.calculate_price, BalancerV2Pool.simulate_swap,
        BalancerV2Pool.simulate_swap_mut, h]

/-- Witness for C9: token 99 is not in a concrete constant-product pool
with tokens 2 and 3, and all three operations reject the pair. -/
theorem claim_c9_invalid_token_pair_error_witness :
    AMM.calculate_price (.UniswapV2Pool ⟨1, 2, 3, 1000, 1000, 3000⟩) 99 3 =
      .error .InvalidTokenPair ∧
    AMM.simulate_swap (.UniswapV2Pool ⟨1, 2, 3, 1000, 1000, 3000⟩) 99 3 5 =
      .error .InvalidTokenPair ∧
    (AMM.simulate_swap_mut (.UniswapV2Pool ⟨1, 2, 3, 1000, 1000, 3000⟩) 99 3 5).1 =
      .error .InvalidTokenPair :=
  claim_c9_invalid_token_pair_error _ 99 3 5
    (Or.inl (by simp [AMM.tokens, UniswapV2Pool.tokens]))

/-- C4: for every pool of every variant, whenever simulate_swap_mut
returns an error the pool state after the call is identical to the
state before it (simulate_swap and calculate_price take the pool by
value and cannot mutate it at all in this embedding, matching their
by-shared-reference receivers in the source). -/
theorem claim_c4_no_mutation_on_error :
    ∀ (a : AMM) (base quote : Address) (amount_in : Nat) (e : AMMError),
      (a.simulate_swap_mut base quote amount_in).1 = .error e →
      (a.simulate_swap_mut base quote amount_in).2 = a := by
  intro a base quote amount_in e h
  cases a with
  | UniswapV2Pool p =>
    simp only [AMM.simulate_swap_mut, UniswapV2Pool.simulate_swap_mut] at h ⊢
    split_ifs at h ⊢
    all_goals simp_all
  | UniswapV3Pool p =>
    simp only [AMM.simulate_swap_mut, UniswapV3Pool.simulate_swap_mut] at h ⊢
    split_ifs at h ⊢
    · cases hl : UniswapV3Pool.swap_within_ticks p.fee p.liquidity p.tick
        amount_in 0 p.ticks_below <;> simp_all
    · cases hl : UniswapV3Pool.swap_within_ticks p.fee p.liquidity p.tick
        amount_in 0 p.ticks_above <;> simp_all
    · simp_all
  | ERC4626Vault v =>
    simp only [AMM.simulate_swap_mut, ERC4626Vault.simulate_swap_mut] at h ⊢
    split_ifs at h ⊢
    all_goals simp_all
  | BalancerV2Pool p =>
    simp only [AMM.simulate_swap_mut, BalancerV2Pool.simulate_swap_mut] at h ⊢
    split_ifs at h ⊢
    all_goals simp_all

/-- Witness for C4: an invalid pair on a concrete vault errors and the
returned state is the original AMM value. -/
theorem claim_c4_no_mutation_on_error_witness :
    (AMM.simulate_swap_mut (.ERC4626Vault ⟨7, 9, 1000, 500⟩) 9 42 100).2 =
      .ERC4626Vault ⟨7, 9, 1000, 500⟩ :=
  claim_c4_no_mutation_on_error _ 9 42 100 .InvalidTokenPair rfl

/-- C3: for every pool of every variant and all inputs, the result of
simulate_swap_mut equals that of simulate_swap on the same cached state
(simulate_swap itself takes the pool by value and is a pure function of
it), and on success simulate_swap_mut commits the post-swap state in
both swap directions of each variant: updated reserves for
constant-product pools, updated totals for vaults (deposit and
withdrawal), updated balances for weighted pools for every valid pair,
and the final liquidity, tick and remaining initialized ticks for
concentrated-liquidity pools on either side. -/
theorem claim_c3_mut_swap_same_output_and_commits :
    ∀ (a : AMM) (base quote : Address) (amount_in : Nat),
      (a.simulate_swap_mut base quote amount_in).1 =
        a.simulate_swap base quote amount_in ∧
      (∀ p : UniswapV2Pool, a = .UniswapV2Pool p →
        base = p.token_a → quote = p.token_b →
        (a.simulate_swap_mut base quote amount_in).2 =
          .UniswapV2Pool { p with
            reserve_0 := p.reserve_0 + amount_in,
            reserve_1 := p.reserve_1 - UniswapV2Pool.get_amount_out
              amount_in p.reserve_0 p.reserve_1 p.fee }) ∧
      (∀ v : ERC4626Vault, a = .ERC4626Vault v →
        base = v.asset_token → quote = v.vault_token →
        (a.simulate_swap_mut base quote amount_in).2 =
          .ERC4626Vault { v with
            total_assets := v.total_assets + amount_in,
            total_shares := v.total_shares +
              amount_in * v.total_shares / v.total_assets }) ∧
      (∀ p : UniswapV3Pool, a = .UniswapV3Pool p →
        base = p.token_a → quote = p.token_b →
        ∀ amount_out liquidity_final tick_final ticks_rest,
          UniswapV3Pool.swap_within_ticks p.fee p.liquidity p.tick
              amount_in 0 p.ticks_below =
            .ok (amount_out, liquidity_final, tick_final, ticks_rest) →
          (a.simulate_swap_mut base quote amount_in).2 =
            .UniswapV3Pool { p with liquidity := liquidity_final,
                                    tick := tick_final,
                                    ticks_below := ticks_rest }) ∧
      (∀ p : BalancerV2Pool, a = .BalancerV2Pool p →
        base ∈ p.tokens → quote ∈ p.tokens →
        (a.simulate_swap_mut base quote amount_in).2 =
          .BalancerV2Pool { p with
            balances := (p.balances.set (p.tokens.indexOf base)
                          (p.balances.getD (p.tokens.indexOf base) 0 +
                            amount_in)).set
                          (p.tokens.indexOf quote)
                          (p.balances.getD (p.tokens.indexOf quote) 0 -
                            BalancerV2Pool.weighted_amount_out
                              (p.balances.getD (p.tokens.indexOf base) 0)
                              (p.balances.getD (p.tokens.indexOf quote) 0)
                              (amount_in * (FEE_DENOMINATOR - p.fee) /
                                FEE_DENOMINATOR)) }) ∧
      (∀ p : UniswapV2Pool, a = .UniswapV2Pool p →
        base = p.token_b → quote = p.token_a → p.token_a ≠ p.token_b →
        (a.simulate_swap_mut base quote amount_in).2 =
          .UniswapV2Pool { p with
            reserve_0 := p.reserve_0 - UniswapV2Pool.get_amount_out
              amount_in p.reserve_1 p.reserve_0 p.fee,
            reserve_1 := p.reserve_1 + amount_in }) ∧
      (∀ v : ERC4626Vault, a = .ERC4626Vault v →
        base = v.vault_token → quote = v.asset_token →
        v.asset_token ≠ v.vault_token →
        (a.simulate_swap_mut base quote amount_in).2 =
          .ERC4626Vault { v with
            total_assets := v.total_assets -
              amount_in * v.total_assets / v.total_shares,
            total_shares := v.total_shares - amount_in }) ∧
      (∀ p : UniswapV3Pool, a = .UniswapV3Pool p →
        base = p.token_b → quote = p.token_a → p.token_a ≠ p.token_b →
        ∀ amount_out liquidity_final tick_final ticks_rest,
          UniswapV3Pool.swap_within_ticks p.fee p.liquidity p.tick
              amount_in 0 p.ticks_above =
            .ok (amount_out, liquidity_final, tick_final, ticks_rest) →
          (a.simulate_swap_mut base quote amount_in).2 =
            .UniswapV3Pool { p with liquidity := liquidity_final,
                                    tick := tick_final,
                                    ticks_above := ticks_rest }) := by
  intro a base quote amount_in
  refine ⟨?_, ?_, ?_, ?_, ?_, ?_, ?_, ?_⟩
  · cases a with
    | UniswapV2Pool p =>
      simp only [AMM.simulate_swap_mut, AMM.simulate_swap,
        UniswapV2Pool.simulate_swap_mut, UniswapV2Pool.simulate_swap]
      split_ifs
      all_goals rfl
    | UniswapV3Pool p =>
      simp only [AMM.simulate_swap_mut, AMM.simulate_swap,
        UniswapV3Pool.simulate_swap_mut, UniswapV3Pool.simulate_swap]
      split_ifs
      · cases UniswapV3Pool.swap_within_ticks p.fee p.liquidity p.tick
          amount_in 0 p.ticks_below <;> simp [Except.map]
      · cases UniswapV3Pool.swap_within_ticks p.fee p.liquidity p.tick
          amount_in 0 p.ticks_above <;> simp [Except.map]
      · rfl
    | ERC4626Vault v =>
      simp only [AMM.simulate_swap_mut, AMM.simulate_swap,
        ERC4626Vault.simulate_swap_mut, ERC4626Vault.simulate_swap]
      split_ifs
      all_goals rfl
    | BalancerV2Pool p =>
      simp only [AMM.simulate_swap_mut, AMM.simulate_swap,
        BalancerV2Pool.simulate_swap_mut, BalancerV2Pool.simulate_swap]
      split_ifs
      all_goals rfl
  · rintro p rfl rfl rfl
    simp [AMM.simulate_swap_mut, UniswapV2Pool.simulate_swap_mut]
  · rintro v rfl rfl rfl
    simp [AMM.simulate_swap_mut, ERC4626Vault.simulate_swap_mut]
  · rintro p rfl rfl rfl amount_out liquidity_final tick_final ticks_rest hl
    simp [AMM.simulate_swap_mut, UniswapV3Pool.simulate_swap_mut, hl]
  · rintro p rfl hb hq
    simp [AMM.simulate_swap_mut, BalancerV2Pool.simulate_swap_mut, hb, hq]
  · rintro p rfl rfl rfl hne
    simp [AMM.simulate_swap_mut, UniswapV2Pool.simulate_swap_mut,
      Ne.symm hne]
  · rintro v rfl rfl rfl hne
    simp [AMM.simulate_swap_mut, ERC4626Vault.simulate_swap_mut,
      Ne.symm hne]
  · rintro p rfl rfl rfl hne amount_out liquidity_final tick_final ticks_rest hl
    simp [AMM.simulate_swap_mut, UniswapV3Pool.simulate_swap_mut,
      Ne.symm hne, hl]

/-- Witness for C3: on a concrete constant-product pool (reserves 1000
and 1000, fee 0.3%) swapping 10 of token 2, the mutating simulation
returns the same output as the pure one and commits reserves 1010 and
991; and on a concrete vault (totals 1000 assets, 500 shares) redeeming
100 shares commits totals 800 and 400. -/
theorem claim_c3_mut_swap_same_output_and_commits_witness :
    (AMM.simulate_swap_mut (.UniswapV2Pool ⟨1, 2, 3, 1000, 1000, 3000⟩) 2 3 10).1 =
      AMM.simulate_swap (.UniswapV2Pool ⟨1, 2, 3, 1000, 1000, 3000⟩) 2 3 10 ∧
    (AMM.simulate_swap_mut (.UniswapV2Pool ⟨1, 2, 3, 1000, 1000, 3000⟩) 2 3 10).2 =
      .UniswapV2Pool ⟨1, 2, 3, 1010, 991, 3000⟩ ∧
    (AMM.simulate_swap_mut (.ERC4626Vault ⟨1, 2, 1000, 500⟩) 1 2 100).2 =
      .ERC4626Vault ⟨1, 2, 800, 400⟩ := by
  refine ⟨?_, ?_, ?_⟩
  · exact (claim_c3_mut_swap_same_output_and_commits _ 2 3 10).1
  · have h := (claim_c3_mut_swap_same_output_and_commits
      (.UniswapV2Pool ⟨1, 2, 3, 1000, 1000, 3000⟩) 2 3 10).2.1
      ⟨1, 2, 3, 1000, 1000, 3000⟩ rfl rfl rfl
    rw [h]
    rfl
  · have h := (claim_c3_mut_swap_same_output_and_commits
      (.ERC4626Vault ⟨1, 2, 1000, 500⟩) 1 2 100).2.2.2.2.2.2.1
      ⟨1, 2, 1000, 500⟩ rfl rfl rfl (by decide)
    rw [h]
    rfl

/-- C6: the constant-product output is the floor of
amount_in_after_fee * reserve_out / (reserve_in + amount_in_after_fee)
with amount_in_after_fee = amount_in * (1 - fee) applied before the
integer floor division, and concretely reserves (1000, 1000) with a
0.3% fee turn an input of 10 of token0 into an output of 9. -/
theorem claim_c6_constant_product_floor_formula :
    (∀ (amount_in reserve_in reserve_out fee : Nat),
      fee ≤ FEE_DENOMINATOR → 0 < reserve_in →
      UniswapV2Pool.get_amount_out amount_in reserve_in reserve_out fee =
        ⌊((amount_in : ℚ) * (1 - (fee : ℚ) / (FEE_DENOMINATOR : ℚ)) *
            (reserve_out : ℚ)) /
          ((reserve_in : ℚ) +
            (amount_in : ℚ) * (1 - (fee : ℚ) / (FEE_DENOMINATOR : ℚ)))⌋₊) ∧
    UniswapV2Pool.simulate_swap ⟨1, 2, 3, 1000, 1000, 3000⟩ 2 3 10 =
      .ok 9 := by
  constructor
  · intro a rin rout fee hfee hrin
    have hF : (0 : ℚ) < (FEE_DENOMINATOR : ℚ) := by
      norm_num [FEE_DENOMINATOR]
    have hfeq : (1 : ℚ) - (fee : ℚ) / (FEE_DENOMINATOR : ℚ) =
        ((FEE_DENOMINATOR - fee : ℕ) : ℚ) / (FEE_DENOMINATOR : ℚ) := by
      rw [Nat.cast_sub hfee]
      field_simp
    have hxnn : (0 : ℚ) ≤ (a : ℚ) * ((FEE_DENOMINATOR - fee : ℕ) : ℚ) :=
      mul_nonneg (Nat.cast_nonneg a) (Nat.cast_nonneg _)
    have hrin1 : (1 : ℚ) ≤ (rin : ℚ) := by exact_mod_cast hrin
    have hd1 : ((rin * FEE_DENOMINATOR + a * (FEE_DENOMINATOR - fee) : ℕ) : ℚ) ≠ 0 := by
      push_cast
      nlinarith
    have hd2 : (rin : ℚ) +
        (a : ℚ) * (((FEE_DENOMINATOR - fee : ℕ) : ℚ) / (FEE_DENOMINATOR : ℚ)) ≠ 0 := by
      have : (0 : ℚ) ≤ (a : ℚ) *
          (((FEE_DENOMINATOR - fee : ℕ) : ℚ) / (FEE_DENOMINATOR : ℚ)) :=
        mul_nonneg (Nat.cast_nonneg a) (div_nonneg (Nat.cast_nonneg _) hF.le)
      nlinarith
    have key : ((a * (FEE_DENOMINATOR - fee) * rout : ℕ) : ℚ) /
        ((rin * FEE_DENOMINATOR + a * (FEE_DENOMINATOR - fee) : ℕ) : ℚ) =
        ((a : ℚ) * (1 - (fee : ℚ) / (FEE_DENOMINATOR : ℚ)) * (rout : ℚ)) /
          ((rin : ℚ) +
            (a : ℚ) * (1 - (fee : ℚ) / (FEE_DENOMINATOR : ℚ))) := by
      rw [hfeq]
      rw [div_eq_div_iff hd1 hd2]
      push_cast
      field_simp
    have hfloor := Nat.floor_div_eq_div (α := ℚ)
      (a * (FEE_DENOMINATOR - fee) * rout)
      (rin * FEE_DENOMINATOR + a * (FEE_DENOMINATOR - fee))
    calc UniswapV2Pool.get_amount_out a rin rout fee
        = a * (FEE_DENOMINATOR - fee) * rout /
            (rin * FEE_DENOMINATOR + a * (FEE_DENOMINATOR - fee)) := rfl
      _ = ⌊((a * (FEE_DENOMINATOR - fee) * rout : ℕ) : ℚ) /
            ((rin * FEE_DENOMINATOR + a * (FEE_DENOMINATOR - fee) : ℕ) : ℚ)⌋₊ :=
          hfloor.symm
      _ = _ := by rw [key]
  · rfl

/-- Witness for C6: the general floor identity instantiated at input 10,
reserves (1000, 1000) and the 0.3% fee. -/
theorem claim_c6_constant_product_floor_formula_witness :
    UniswapV2Pool.get_amount_out 10 1000 1000 3000 =
      ⌊(((10 : ℕ) : ℚ) * (1 - ((3000 : ℕ) : ℚ) / (FEE_DENOMINATOR : ℚ)) *
          ((1000 : ℕ) : ℚ)) /
        (((1000 : ℕ) : ℚ) +
          ((10 : ℕ) : ℚ) * (1 - ((3000 : ℕ) : ℚ) / (FEE_DENOMINATOR : ℚ)))⌋₊ :=
  claim_c6_constant_product_floor_formula.1 10 1000 1000 3000
    (by norm_num [FEE_DENOMINATOR]) (by norm_num)

/-- Counterexample for C7: for the vault with total_assets 1000 and
total_shares 500, depositing 100 underlying mints 50 shares (as the
claim's own concrete scenario says), while the claim's general deposit
formula amount_in * total_assets / total_shares evaluates to 200, so
the general formula in the claim does not hold of the deposit
direction. -/
theorem claim_c7_deposit_formula_counterexample :
    ERC4626Vault.simulate_swap ⟨1, 2, 1000, 500⟩ 2 1 100 = .ok 50 ∧
    100 * 1000 / 500 = 200 ∧ (50 : ℕ) ≠ 200 :=
  ⟨rfl, rfl, by decide⟩

/-- C7 amended: a deposit of amount_in underlying mints
floor(amount_in * total_shares / total_assets) shares, the withdrawal
direction uses the inverse ratio floor(amount_in * total_assets /
total_shares), no fee is applied, and concretely the vault with
total_assets 1000 and total_shares 500 mints 50 shares for a deposit
of 100 underlying. -/
theorem claim_c7_vault_exchange_rate_amended :
    (∀ (v : ERC4626Vault) (amount_in : ℕ),
      v.asset_token ≠ v.vault_token →
      v.simulate_swap v.asset_token v.vault_token amount_in =
        .ok (amount_in * v.total_shares / v.total_assets) ∧
      v.simulate_swap v.vault_token v.asset_token amount_in =
        .ok (amount_in * v.total_assets / v.total_shares)) ∧
    ERC4626Vault.simulate_swap ⟨1, 2, 1000, 500⟩ 2 1 100 = .ok 50 := by
  constructor
  · intro v amount_in hne
    constructor
    · simp [ERC4626Vault.simulate_swap]
    · simp [ERC4626Vault.simulate_swap, Ne.symm hne]
  · rfl

/-- Witness for C7: the amended exchange-rate equations instantiated at
the concrete vault of the spec's fixture, in both directions. -/
theorem claim_c7_vault_exchange_rate_amended_witness :
    ERC4626Vault.simulate_swap ⟨1, 2, 1000, 500⟩ 2 1 100 =
      .ok (100 * 500 / 1000) ∧
    ERC4626Vault.simulate_swap ⟨1, 2, 1000, 500⟩ 1 2 100 =
      .ok (100 * 1000 / 500) :=
  claim_c7_vault_exchange_rate_amended.1 ⟨1, 2, 1000, 500⟩ 100 (by decide)

/-- Division of naturals is monotone under cross multiplication of
numerators with the opposite denominators. -/
theorem nat_div_le_div_of_cross_mul {p q r s : ℕ} (hq : 0 < q)
    (hs : 0 < s) (h : p * s ≤ r * q) : p / q ≤ r / s := by
  rw [Nat.le_div_iff_mul_le hs]
  have h1 : p / q * q ≤ p := Nat.div_mul_le_self p q
  have h2 : p / q * s * q ≤ r * q := by
    calc p / q * s * q = p / q * q * s := by ring
      _ ≤ p * s := Nat.mul_le_mul_right s h1
      _ ≤ r * q := h
  exact Nat.le_of_mul_le_mul_right h2 hq

/-- The hyperbola map x ↦ x * R / (c + x) on naturals is monotone in x
for a positive shift c. -/
theorem hyperbola_div_mono {x y R c : ℕ} (hc : 0 < c) (hxy : x ≤ y) :
    x * R / (c + x) ≤ y * R / (c + y) := by
  apply nat_div_le_div_of_cross_mul (by omega) (by omega)
  have h1 : x * R * c ≤ y * R * c := by
    calc x * R * c = x * (R * c) := by ring
      _ ≤ y * (R * c) := Nat.mul_le_mul_right (R * c) hxy
      _ = y * R * c := by ring
  calc x * R * (c + y) = x * R * c + x * R * y := by ring
    _ ≤ y * R * c + y * R * x := Nat.add_le_add h1 (Nat.le_of_eq (by ring))
    _ = y * R * (c + x) := by ring

/-- Counterexample for C8: on the constant-product pool with reserves
(1000, 2) and fee 0.3%, inputs 10 and 11 both satisfy the claim's
preconditions (positive reserves, 0 < 10 < 11 < reserve_in) yet produce
the same output 0, so the output of simulate_swap is not strictly
increasing in the input amount. -/
theorem claim_c8_strict_monotonicity_counterexample :
    UniswapV2Pool.simulate_swap ⟨1, 2, 3, 1000, 2, 3000⟩ 2 3 10 = .ok 0 ∧
    UniswapV2Pool.simulate_swap ⟨1, 2, 3, 1000, 2, 3000⟩ 2 3 11 = .ok 0 ∧
    ¬ UniswapV2Pool.get_amount_out 10 1000 2 3000 <
        UniswapV2Pool.get_amount_out 11 1000 2 3000 :=
  ⟨rfl, rfl, by decide⟩

/-- C8 amended: for a constant-product pool with positive reserves and
0 < a1 < a2 < reserve_in, the simulate_swap output (which is
get_amount_out of the cached reserves) is monotonically non-decreasing
in the input amount and monotonically non-increasing in the fee rate
(strictness fails because of the integer floor). -/
theorem claim_c8_monotone_in_amount_and_fee_amended :
    ∀ (addr token_a token_b reserve_in reserve_out fee fee_hi a1 a2 : ℕ),
      0 < reserve_in → 0 < reserve_out → 0 < a1 → a1 < a2 →
      a2 < reserve_in → fee ≤ fee_hi →
      UniswapV2Pool.simulate_swap
          ⟨addr, token_a, token_b, reserve_in, reserve_out, fee⟩
          token_a token_b a1 =
        .ok (UniswapV2Pool.get_amount_out a1 reserve_in reserve_out fee) ∧
      UniswapV2Pool.get_amount_out a1 reserve_in reserve_out fee ≤
        UniswapV2Pool.get_amount_out a2 reserve_in reserve_out fee ∧
      UniswapV2Pool.get_amount_out a1 reserve_in reserve_out fee_hi ≤
        UniswapV2Pool.get_amount_out a1 reserve_in reserve_out fee := by
  intro addr token_a token_b reserve_in reserve_out fee fee_hi a1 a2
  intro hrin hrout ha1 h12 h2rin hfee
  have hc : 0 < reserve_in * FEE_DENOMINATOR := by
    have : 0 < FEE_DENOMINATOR := by norm_num [FEE_DENOMINATOR]
    exact Nat.mul_pos hrin this
  refine ⟨?_, ?_, ?_⟩
  · simp [UniswapV2Pool.simulate_swap]
  · exact hyperbola_div_mono hc
      (Nat.mul_le_mul_right (FEE_DENOMINATOR - fee) (Nat.le_of_lt h12))
  · exact hyperbola_div_mono hc
      (Nat.mul_le_mul_left a1 (Nat.sub_le_sub_left hfee FEE_DENOMINATOR))

/-- Witness for C8: the amended monotonicity instantiated on a concrete
pool with reserves (1000, 1000), inputs 10 and 20, fees 0.3% and 1%. -/
theorem claim_c8_monotone_in_amount_and_fee_amended_witness :
    UniswapV2Pool.simulate_swap ⟨1, 2, 3, 1000, 1000, 3000⟩ 2 3 10 =
      .ok (UniswapV2Pool.get_amount_out 10 1000 1000 3000) ∧
    UniswapV2Pool.get_amount_out 10 1000 1000 3000 ≤
      UniswapV2Pool.get_amount_out 20 1000 1000 3000 ∧
    UniswapV2Pool.get_amount_out 10 1000 1000 10000 ≤
      UniswapV2Pool.get_amount_out 10 1000 1000 3000 :=
  claim_c8_monotone_in_amount_and_fee_amended 1 2 3 1000 1000 3000 10000
    10 20 (by norm_num) (by norm_num) (by norm_num) (by norm_num)
    (by norm_num) (by norm_num)
